import Mathlib

/-!
Verification of the tri-query orchestration core of the artribune-mcp-server
repository (`src/tools/tri_query_tools.py`), shallowly embedded in Lean.

Python strings are modelled as `List Char` (one element per Unicode code
point, matching Python `len` and slicing).  Python `int` sizes are modelled
as `Nat` (all claims concern non-negative budgets); the float products
`int(chunk_size * 0.6)` / `int(chunk_size * 0.4)` are modelled as the exact
truncations `6 * chunk_size / 10` / `4 * chunk_size / 10`.  External
collaborators (Gemini, Neo4j, PostgreSQL) are modelled as oracle parameters;
a Python exception escaping a function is modelled by `Except.error`.
-/

set_option maxRecDepth 100000

namespace TriQuery

/-- Python strings as lists of code points. -/
abbrev Str := List Char

/-- Code-point list of a Lean string literal. -/
def str (s : String) : Str := s.data

/-- A single-quote character (code point 39), used in the SQL literals. -/
def sq : Str := [Char.ofNat 39]

/-- Python `text[-k:]`: the last `k` characters, except that `text[-0:]`
is the whole string. -/
def pyTakeLast (text : Str) (k : Nat) : Str :=
  if k = 0 then text else text.drop (text.length - k)

/-- Python `text[:k]` for a possibly negative `k`: a negative stop counts
from the end, and out-of-range stops are clamped. -/
def pySliceTo (text : Str) (k : Int) : Str :=
  if k < 0 then text.take (text.length - k.natAbs) else text.take k.toNat

/-- Python `s.lower()` (ASCII-adequate: every keyword below is ASCII). -/
def lowerStr (s : Str) : Str := s.map Char.toLower

/-- Python `text.split(". ")`: split on each non-overlapping leftmost
occurrence of the two-character dot-space separator, keeping empty
pieces. -/
def splitDot : Str → List Str
  | [] => [[]]
  | '.' :: ' ' :: rest => [] :: splitDot rest
  | c :: rest =>
    match splitDot rest with
    | [] => [[c]]
    | t :: ts => (c :: t) :: ts

/-- Python `sep.join(pieces)`. -/
def joinSep (sep : Str) : List Str → Str
  | [] => []
  | [s] => s
  | s :: rest => s ++ sep ++ joinSep sep rest

/-- Helper for `splitWs`: accumulates the current (reversed) word. -/
def splitWsAcc (cur : Str) : Str → List Str
  | [] => if cur = [] then [] else [cur.reverse]
  | c :: rest =>
    if c.isWhitespace then
      (if cur = [] then [] else [cur.reverse]) ++ splitWsAcc [] rest
    else
      splitWsAcc (c :: cur) rest

/-- Python `s.split()` with no argument: whitespace-delimited words,
with no empty pieces. -/
def splitWs (s : Str) : List Str := splitWsAcc [] s

/-- The fixed domain keyword list `art_keywords` of `_chunk_text`. -/
def art_keywords : List Str :=
  [str "mostra", str "exhibition", str "galleria", str "museo",
   str "biennale", str "triennale",
   str "artista", str "artist", str "curatore", str "curator", str "critico",
   str "palazzo", str "fondazione", str "centro", str "spazio",
   str "gennaio", str "febbraio", str "marzo", str "aprile", str "maggio",
   str "giugno", str "luglio", str "agosto", str "settembre", str "ottobre",
   str "novembre", str "dicembre",
   str "2020", str "2021", str "2022", str "2023", str "2024", str "2025"]

/-- Python `needle in hay` on strings: contiguous-substring test. -/
def containsSub (needle : Str) : Str → Bool
  | [] => needle = []
  | c :: rest => List.isPrefixOf needle (c :: rest) || containsSub needle rest

/-- The per-sentence salience test of `_chunk_text`:
`any(keyword in sentence.lower() for keyword in art_keywords)`. -/
def is_important (sentence : Str) : Bool :=
  art_keywords.any (fun k => containsSub k (lowerStr sentence))

/-- Embedding of `_chunk_text(text, chunk_size, smart_chunking)`. -/
def chunk_text (text : Str) (chunk_size : Nat) (smart_chunking : Bool) : Str :=
  if text.length ≤ chunk_size then text
  else if smart_chunking = false then
    let first_part := 6 * chunk_size / 10
    let last_part := 4 * chunk_size / 10
    text.take first_part ++ str "..." ++ pyTakeLast text last_part
  else
    let sentences := splitDot text
    let important_sentences := sentences.filter is_important
    let regular_sentences := sentences.filter (fun s => ¬ is_important s)
    let important_text := joinSep (str ". ") important_sentences
    if chunk_size ≤ important_text.length then
      pySliceTo important_text ((chunk_size : Int) - 3) ++ str "..."
    else
      let remaining_space : Int :=
        (chunk_size : Int) - important_text.length - 10
      let regular_text := joinSep (str ". ") regular_sentences
      if (regular_text.length : Int) ≤ remaining_space then
        important_text ++ str ". " ++ regular_text
      else
        important_text ++ str ". " ++ pySliceTo regular_text remaining_space
          ++ str "..."

/-- The f-string prompt built by `_semantic_analysis` (verbatim, with the
query interpolated). -/
def semanticPrompt (query : Str) : Str :=
  str "\n        Analizza brevemente questa domanda di arte contemporanea:\n        \"" ++
  query ++
  str "\"\n        \n        Rispondi in max 200 caratteri con:\n        ENTITÀ: [artisti/luoghi principali]\n        TIPO: [ricerca|network|timeline]\n        FOCUS: [termine principale]\n        "

/-- The successful-dict shape returned by `_semantic_analysis`. -/
structure SemOk where
  entities : List Str
  query_type : Str
  focus : Str
  analysis : Str
  tokens_used : Nat
deriving DecidableEq

/-- The dict returned by `_semantic_analysis`: either the success shape or
the `except`-branch dict carrying the exception text and a recorded
`tokens_used` value. -/
inductive SemResult
  | ok (r : SemOk)
  | err (error : Str) (tokens_used : Nat)
deriving DecidableEq

/-- Python `result.get("tokens_used", 0)`: present in both dict shapes. -/
def SemResult.tokensUsed : SemResult → Nat
  | .ok r => r.tokens_used
  | .err _ n => n

/-- Whether the dict carries the `error` key. -/
def SemResult.isErr : SemResult → Bool
  | .ok _ => false
  | .err _ _ => true

/-- Python `result.get("analysis", "N/A")`. -/
def SemResult.analysisGet : SemResult → Str
  | .ok r => r.analysis
  | .err _ _ => str "N/A"

/-- Python `str(IndexError(...))` for an out-of-range list index. -/
def indexErrorMsg : Str := str "list index out of range"

/-- Embedding of `_semantic_analysis(query, chunk_size)`.  The Gemini call
is an oracle: `Except.error e` means `generate_content` raised with message
`e`, `Except.ok t` means it returned response text `t`.  The whole body runs
inside a `try`, so every failure — including the `IndexError` from
`query.split()[0]` on a whitespace-only query — becomes the error dict. -/
def semantic_analysis (gemini : Except Str Str) (query : Str)
    (chunk_size : Nat) : SemResult :=
  let prompt := semanticPrompt query
  match gemini with
  | .error e => .err e 0
  | .ok respText =>
    let analysis_text := chunk_text respText chunk_size true
    if query = [] then
      .ok { entities := [], query_type := str "ricerca", focus := [],
            analysis := analysis_text,
            tokens_used := prompt.length + analysis_text.length }
    else
      match splitWs query with
      | [] => .err indexErrorMsg 0
      | w :: _ =>
        .ok { entities := [], query_type := str "ricerca", focus := w,
              analysis := analysis_text,
              tokens_used := prompt.length + analysis_text.length }

/-- One record returned by the Neo4j collaborator. -/
structure GraphRecord where
  artist1 : Str
  artist2 : Str
  mentions1 : Nat
  mentions2 : Nat
deriving DecidableEq

/-- Behaviour of the Neo4j collaborator for one `_graph_analysis` call:
`setupFail` means `_setup_connections()` or `driver.session()` raised
(outside the `try`), `runFail` means `session.run` or result iteration
raised (inside the `try`), `records` is a successful record stream. -/
inductive GraphOracle
  | setupFail (msg : Str)
  | runFail (msg : Str)
  | records (recs : List GraphRecord)
deriving DecidableEq

/-- The successful-dict shape returned by `_graph_analysis`. -/
structure GraphOk where
  collaborations : List Str
  total_found : Nat
  query_executed : Str
  char_used : Nat
deriving DecidableEq

/-- The dict returned by `_graph_analysis` when it returns normally. -/
inductive GraphResult
  | ok (r : GraphOk)
  | err (error : Str) (char_used : Nat)
deriving DecidableEq

/-- Python `result.get("char_used", 0)`: present in both dict shapes. -/
def GraphResult.charUsed : GraphResult → Nat
  | .ok r => r.char_used
  | .err _ n => n

/-- Whether the graph dict carries the `error` key. -/
def GraphResult.isErr : GraphResult → Bool
  | .ok _ => false
  | .err _ _ => true

/-- The Cypher f-string built by `_graph_analysis` (verbatim). -/
def cypherQuery (max_results : Nat) : Str :=
  str "\n        MATCH (a:Artist)-[:COLLABORATES_WITH]-(b:Artist)\n        WHERE a.mentions > 100 AND b.mentions > 100\n        RETURN a.name as artist1, b.name as artist2, \n               a.mentions as mentions1, b.mentions as mentions2\n        ORDER BY (a.mentions + b.mentions) DESC\n        LIMIT " ++
  str (Nat.repr max_results) ++ str "\n        "

/-- The display string `f"{artist1} ↔ {artist2} ({m1}+{m2} menzioni)"`. -/
def artistInfo (r : GraphRecord) : Str :=
  r.artist1 ++ str " ↔ " ++ r.artist2 ++ str " (" ++
  str (Nat.repr r.mentions1) ++ str "+" ++ str (Nat.repr r.mentions2) ++
  str " menzioni)"

/-- Python `str(ZeroDivisionError(...))` for `//` by zero. -/
def zeroDivMsg : Str := str "integer division or modulo by zero"

/-- Embedding of `_graph_analysis(query, max_results, chunk_size)`.
`Except.error` models an exception escaping the method: the connection
setup and session acquisition happen outside the `try` block, so their
failures propagate; `session.run`/iteration failures and the
`ZeroDivisionError` from `chunk_size // max_results` (raised on the first
loop iteration when `max_results = 0`) are caught and become the error
dict. -/
def graph_analysis (o : GraphOracle) (query : Str)
    (max_results chunk_size : Nat) : Except Str GraphResult :=
  match o with
  | .setupFail m => .error m
  | .runFail m => .ok (.err m 0)
  | .records recs =>
    if recs ≠ [] ∧ max_results = 0 then .ok (.err zeroDivMsg 0)
    else
      let results := recs.map (fun r =>
        chunk_text (artistInfo r) (chunk_size / max_results) true)
      .ok (.ok { collaborations := results, total_found := results.length,
                 query_executed := (cypherQuery max_results).take 100 ++
                   str "...",
                 char_used := (results.map List.length).sum })

/-- Behaviour of the PostgreSQL collaborator for one `_temporal_analysis`
call: `setupFail` covers `_setup_connections()`/`cursor()` raising (outside
the `try`), `runFail` covers `execute`/`fetchall` raising (inside the
`try`), `rows` is a successful `(year, articles, events)` row list. -/
inductive TemporalOracle
  | setupFail (msg : Str)
  | runFail (msg : Str)
  | rows (rows : List (Int × Nat × Nat))
deriving DecidableEq

/-- The successful-dict shape returned by `_temporal_analysis`. -/
structure TemporalOk where
  timeline : List Str
  date_range : Str
  total_years : Nat
  char_used : Nat
deriving DecidableEq

/-- The dict returned by `_temporal_analysis` when it returns normally. -/
inductive TemporalResult
  | ok (r : TemporalOk)
  | err (error : Str) (char_used : Nat)
deriving DecidableEq

/-- Python `result.get("char_used", 0)`: present in both dict shapes. -/
def TemporalResult.charUsed : TemporalResult → Nat
  | .ok r => r.char_used
  | .err _ n => n

/-- Whether the temporal dict carries the `error` key. -/
def TemporalResult.isErr : TemporalResult → Bool
  | .ok _ => false
  | .err _ _ => true

/-- The `date_filter` SQL fragment computed by `_temporal_analysis`.
`nowMinus365` stands for `(datetime.now() - timedelta(days=365))
.strftime(%Y-%m-%d)`, the only wall-clock-dependent input, passed here as
a parameter. -/
def date_filter (nowMinus365 : Str) (date_range : Str) : Str :=
  if date_range = str "last_year" then
    str "published_date >= " ++ sq ++ nowMinus365 ++ sq
  else if date_range = str "2020-2024" then
    str "published_date >= " ++ sq ++ str "2020-01-01" ++ sq ++
    str " AND published_date < " ++ sq ++ str "2025-01-01" ++ sq
  else
    str "published_date IS NOT NULL"

/-- The display string `f"{int(year)}: {articles} articoli, {events}
eventi"` built from one row. -/
def yearInfo (row : Int × Nat × Nat) : Str :=
  str row.1.repr ++ str ": " ++ str (Nat.repr row.2.1) ++
  str " articoli, " ++ str (Nat.repr row.2.2) ++ str " eventi"

/-- Embedding of `_temporal_analysis(query, date_range, max_results,
chunk_size)`.  As in the graph adapter, connection setup failures happen
outside the `try` and propagate; query-execution failures are caught and
become the error dict.  The `date_filter` fragment is interpolated into the
SQL sent to the collaborator, whose response is the row list of the
oracle. -/
def temporal_analysis (o : TemporalOracle) (query : Str)
    (nowMinus365 : Str) (date_range : Str)
    (max_results chunk_size : Nat) : Except Str TemporalResult :=
  match o with
  | .setupFail m => .error m
  | .runFail m => .ok (.err m 0)
  | .rows rows =>
    let results := rows.map yearInfo
    .ok (.ok { timeline := results, date_range := date_range,
               total_years := results.length,
               char_used := (results.map List.length).sum })

/-- The `TriQueryParams` pydantic model (defaults as declared). -/
structure TriQueryParams where
  query : Str
  use_semantic : Bool := true
  use_graph : Bool := false
  use_dates : Bool := false
  chunk_size : Nat := 2000
  max_results : Nat := 10
  date_range : Str := str "all"
  smart_chunking : Bool := true
  output_format : Str := str "summary"
deriving DecidableEq

/-- The `chunking_applied` sub-dict of the response. -/
structure ChunkingApplied where
  chunk_size : Nat
  max_results : Nat
  total_chars : Nat
deriving DecidableEq

/-- The dict returned by `execute`. -/
structure ExecResult where
  query : Str
  systems_used : List Str
  semantic_analysis : Option SemResult
  graph_data : Option GraphResult
  temporal_data : Option TemporalResult
  combined_summary : Str
  context_usage : List (Str × Nat)
  chunking_applied : ChunkingApplied
deriving DecidableEq

/-- The `summary_parts` list built in STEP 4 of `execute`: the semantic
fragment is appended whenever a semantic dict exists (error or not, via
`.get("analysis", "N/A")`), the graph and temporal fragments only when the
dict has a non-empty `collaborations` / `timeline` list. -/
def summaryParts (sem : Option SemResult) (g : Option GraphResult)
    (t : Option TemporalResult) : List Str :=
  (match sem with
   | some s => [str "🧠 Semantico: " ++ s.analysisGet.take 100]
   | none => []) ++
  (match g with
   | some (.ok r) =>
     if r.collaborations = [] then []
     else [str "🕸️ Network: " ++ str (Nat.repr r.collaborations.length) ++
           str " collaborazioni trovate"]
   | _ => []) ++
  (match t with
   | some (.ok r) =>
     if r.timeline = [] then []
     else [str "📊 Temporale: " ++ str (Nat.repr r.timeline.length) ++
           str " anni analizzati"]
   | _ => [])

/-- The `context_usage` dict of `execute`, as an insertion-ordered
association list: one entry per enabled system, holding
`result.get("tokens_used", 0)` / `result.get("char_used", 0)`. -/
def contextUsage (p : TriQueryParams) (sem : Option SemResult)
    (g : Option GraphResult) (t : Option TemporalResult) :
    List (Str × Nat) :=
  (if p.use_semantic then
    [(str "semantic", (sem.map SemResult.tokensUsed).getD 0)] else []) ++
  (if p.use_graph then
    [(str "graph", (g.map GraphResult.charUsed).getD 0)] else []) ++
  (if p.use_dates then
    [(str "temporal", (t.map TemporalResult.charUsed).getD 0)] else [])

/-- STEP 4 of `execute`: the final response dict, assembled from the three
optional adapter results. -/
def assemble (p : TriQueryParams) (sem : Option SemResult)
    (g : Option GraphResult) (t : Option TemporalResult) : ExecResult :=
  let parts := summaryParts sem g t
  { query := p.query
    systems_used :=
      (if p.use_semantic then [str "semantic"] else []) ++
      (if p.use_graph then [str "graph"] else []) ++
      (if p.use_dates then [str "temporal"] else [])
    semantic_analysis := sem
    graph_data := g
    temporal_data := t
    combined_summary :=
      if parts = [] then str "Nessun sistema attivato"
      else joinSep (str " | ") parts
    context_usage := contextUsage p sem g t
    chunking_applied :=
      { chunk_size := p.chunk_size, max_results := p.max_results,
        total_chars := ((contextUsage p sem g t).map (·.2)).sum } }

/-- Embedding of `execute(params)`.  The three steps run sequentially;
`execute` performs no parameter validation.  The semantic adapter cannot
raise, but a `setupFail` in the graph or temporal adapter escapes the
adapter and propagates out of `execute` (modelled by `Except.error`). -/
def execute (gemini : Except Str Str) (gO : GraphOracle)
    (tO : TemporalOracle) (nowMinus365 : Str) (p : TriQueryParams) :
    Except Str ExecResult :=
  let semantic_result : Option SemResult :=
    if p.use_semantic then
      some (semantic_analysis gemini p.query p.chunk_size)
    else none
  match (if p.use_graph then
          (graph_analysis gO p.query p.max_results p.chunk_size).map some
         else .ok none) with
  | .error m => .error m
  | .ok graph_result =>
    match (if p.use_dates then
            (temporal_analysis tO p.query nowMinus365 p.date_range
              p.max_results p.chunk_size).map some
           else .ok none) with
    | .error m => .error m
    | .ok temporal_result =>
      .ok (assemble p semantic_result graph_result temporal_result)

/-- A whitespace-only word stream splits to nothing. -/
theorem splitWsAcc_nil_of_ws (q : Str)
    (hws : ∀ c ∈ q, c.isWhitespace = true) : splitWsAcc [] q = [] := by
  induction q with
  | nil => rfl
  | cons c rest ih =>
    have hc := hws c (List.mem_cons_self c rest)
    simp only [splitWsAcc, hc, if_true, if_pos rfl, List.nil_append]
    exact ih (fun d hd => hws d (List.mem_cons_of_mem _ hd))

/-- Every member of a joined list is a contiguous substring of the join. -/
theorem mem_sub_joinSep (sep : Str) (l : List Str) (s : Str) (h : s ∈ l) :
    s <:+: joinSep sep l := by
  induction l with
  | nil => cases h
  | cons a rest ih =>
    cases rest with
    | nil =>
      rcases List.mem_singleton.mp h with rfl
      exact ⟨[], [], by simp [joinSep]⟩
    | cons b t =>
      rcases List.mem_cons.mp h with rfl | hmem
      · exact ⟨[], sep ++ joinSep sep (b :: t), by simp [joinSep]⟩
      · obtain ⟨u, v, huv⟩ := ih hmem
        exact ⟨a ++ sep ++ u, v, by
          simp only [joinSep]
          rw [← huv]
          simp [List.append_assoc]⟩

/-- A contiguous substring survives appending on the right. -/
theorem sub_append_right (l₁ l₂ l₃ : Str) (h : l₁ <:+: l₂) :
    l₁ <:+: l₂ ++ l₃ := by
  obtain ⟨u, v, huv⟩ := h
  exact ⟨u, v ++ l₃, by rw [← huv]; simp [List.append_assoc]⟩

/-- The first joined piece is a prefix of the join. -/
theorem joinSep_head_sub (sep a : Str) (rest : List Str) :
    a <+: joinSep sep (a :: rest) := by
  cases rest with
  | nil => exact ⟨[], by simp [joinSep]⟩
  | cons b t =>
    exact ⟨sep ++ joinSep sep (b :: t), by simp [joinSep, List.append_assoc]⟩

/-- C8 (confirmed): for every string, every budget and both values of the
smart flag, if `len(text) ≤ budget` then `_chunk_text` returns the text
unchanged; hence re-chunking any output that fits the budget is a no-op. -/
theorem C8_chunk_identity (text : Str) (chunk_size : Nat)
    (smart_chunking : Bool) :
    (text.length ≤ chunk_size →
      chunk_text text chunk_size smart_chunking = text) ∧
    ((chunk_text text chunk_size smart_chunking).length ≤ chunk_size →
      chunk_text (chunk_text text chunk_size smart_chunking) chunk_size
          smart_chunking =
        chunk_text text chunk_size smart_chunking) := by
  constructor
  · intro h
    unfold chunk_text
    rw [if_pos h]
  · intro h
    generalize hx : chunk_text text chunk_size smart_chunking = x at h ⊢
    unfold chunk_text
    rw [if_pos h]

/-- C8 witness: `chunk("short text", 100, true) == "short text"`, and
chunking the output again is a no-op. -/
theorem C8_witness :
    (str "short text").length ≤ 100 ∧
    chunk_text (str "short text") 100 true = str "short text" ∧
    chunk_text (chunk_text (str "short text") 100 true) 100 true =
      chunk_text (str "short text") 100 true :=
  ⟨by decide,
   (C8_chunk_identity (str "short text") 100 true).1 (by decide),
   (C8_chunk_identity (str "short text") 100 true).2 (by decide)⟩

/-- C9 (confirmed): every error-tagged dict an adapter can return carries
zero usage: `tokens_used = 0` for the semantic adapter, `char_used = 0`
for the graph and temporal adapters. -/
theorem C9_error_zero_usage :
    (∀ (gem : Except Str Str) (q : Str) (cs : Nat),
       (semantic_analysis gem q cs).isErr = true →
       (semantic_analysis gem q cs).tokensUsed = 0) ∧
    (∀ (o : GraphOracle) (q : Str) (mr cs : Nat) (r : GraphResult),
       graph_analysis o q mr cs = .ok r → r.isErr = true →
       r.charUsed = 0) ∧
    (∀ (o : TemporalOracle) (q nm dr : Str) (mr cs : Nat)
       (r : TemporalResult),
       temporal_analysis o q nm dr mr cs = .ok r → r.isErr = true →
       r.charUsed = 0) := by
  refine ⟨?_, ?_, ?_⟩
  · intro gem q cs h
    cases gem with
    | error e => rfl
    | ok resp =>
      by_cases hq : q = []
      · simp [semantic_analysis, hq, SemResult.isErr] at h
      · simp only [semantic_analysis, if_neg hq] at h ⊢
        cases hsp : splitWs q with
        | nil => rfl
        | cons w ws => rw [hsp] at h; simp [SemResult.isErr] at h
  · intro o q mr cs r hr herr
    cases o with
    | setupFail m => exact absurd hr (by simp [graph_analysis])
    | runFail m =>
      simp only [graph_analysis] at hr
      injection hr with h1
      rw [← h1]
      rfl
    | records recs =>
      simp only [graph_analysis] at hr
      split at hr
      · injection hr with h1
        rw [← h1]
        rfl
      · injection hr with h1
        rw [← h1] at herr
        simp [GraphResult.isErr] at herr
  · intro o q nm dr mr cs r hr herr
    cases o with
    | setupFail m => exact absurd hr (by simp [temporal_analysis])
    | runFail m =>
      simp only [temporal_analysis] at hr
      injection hr with h1
      rw [← h1]
      rfl
    | rows rows =>
      simp only [temporal_analysis] at hr
      injection hr with h1
      rw [← h1] at herr
      simp [TemporalResult.isErr] at herr

/-- C9 witness: a concrete error result in each adapter carries zero
usage. -/
theorem C9_witness :
    (semantic_analysis (.error (str "boom")) (str "q") 10).isErr = true ∧
    (semantic_analysis (.error (str "boom")) (str "q") 10).tokensUsed = 0 ∧
    GraphResult.charUsed (.err (str "down") 0) = 0 ∧
    TemporalResult.charUsed (.err (str "down") 0) = 0 :=
  ⟨by decide,
   C9_error_zero_usage.1 (.error (str "boom")) (str "q") 10 (by decide),
   C9_error_zero_usage.2.1 (.runFail (str "down")) (str "q") 10 2000
     (.err (str "down") 0) rfl (by decide),
   C9_error_zero_usage.2.2 (.runFail (str "down")) (str "q") (str "d")
     (str "all") 10 2000 (.err (str "down") 0) rfl (by decide)⟩

/-- C10 (confirmed): on a non-empty, all-whitespace query, the focus
computation `query.split()[0]` raises an `IndexError` inside the `try`
block of the adapter, so `_semantic_analysis` returns the error dict with
`tokens_used = 0` even though the model call succeeded. -/
theorem C10_whitespace_query (resp q : Str) (cs : Nat) (hne : q ≠ [])
    (hws : ∀ c ∈ q, c.isWhitespace = true) :
    semantic_analysis (.ok resp) q cs = .err indexErrorMsg 0 := by
  have hsp : splitWs q = [] := splitWsAcc_nil_of_ws q hws
  simp only [semantic_analysis, if_neg hne, hsp]

/-- C10 witness: the single-space query. -/
theorem C10_witness :
    (str " " ≠ ([] : Str)) ∧
    semantic_analysis (.ok (str "ciao")) (str " ") 2000 =
      .err indexErrorMsg 0 :=
  ⟨by decide,
   C10_whitespace_query (str "ciao") (str " ") 2000 (by decide) (by decide)⟩

/-- C3 counterexample: a connection/initialization failure of the graph or
temporal collaborator is raised by `_setup_connections()` outside the
`try` block of the adapter and propagates out of the adapter, contrary to
the claim that no collaborator exception ever propagates. -/
theorem C3_counterexample :
    graph_analysis (.setupFail (str "Neo4j connection refused")) (str "q")
        10 2000 =
      .error (str "Neo4j connection refused") ∧
    temporal_analysis (.setupFail (str "PostgreSQL down")) (str "q")
        (str "2024-10-12") (str "all") 10 2000 =
      .error (str "PostgreSQL down") :=
  ⟨rfl, rfl⟩

/-- C3 (corrected): only exceptions raised inside the per-adapter `try`
block (query execution and result iteration) are caught and converted into
an error dict with zero usage; the semantic adapter catches everything,
but connection/initialization failures in the graph and temporal adapters
occur before their `try` blocks and propagate to the orchestrator. -/
theorem C3_amended :
    (∀ (m q : Str) (mr cs : Nat),
       graph_analysis (.runFail m) q mr cs = .ok (.err m 0)) ∧
    (∀ (m q nm dr : Str) (mr cs : Nat),
       temporal_analysis (.runFail m) q nm dr mr cs = .ok (.err m 0)) ∧
    (∀ (m q : Str) (cs : Nat),
       semantic_analysis (.error m) q cs = .err m 0) ∧
    (∀ (m q : Str) (mr cs : Nat),
       graph_analysis (.setupFail m) q mr cs = .error m) ∧
    (∀ (m q nm dr : Str) (mr cs : Nat),
       temporal_analysis (.setupFail m) q nm dr mr cs = .error m) :=
  ⟨fun _ _ _ _ => rfl, fun _ _ _ _ _ _ => rfl, fun _ _ _ => rfl,
   fun _ _ _ _ => rfl, fun _ _ _ _ _ _ => rfl⟩

/-- C7 counterexample: `date_range = "all"` produces the date-not-null
filter rather than no restriction, and an explicit year range other than
the hard-coded literal `"2020-2024"` (here `"2019-2023"`) also falls
through to the date-not-null filter instead of its year bounds. -/
theorem C7_counterexample :
    date_filter (str "2024-10-12") (str "all") =
      str "published_date IS NOT NULL" ∧
    date_filter (str "2024-10-12") (str "2019-2023") =
      str "published_date IS NOT NULL" ∧
    date_filter (str "2024-10-12") (str "2019-2023") ≠
      str "published_date >= " ++ sq ++ str "2019-01-01" ++ sq ++
      str " AND published_date < " ++ sq ++ str "2024-01-01" ++ sq :=
  ⟨by decide, by decide, by decide⟩

/-- C7 (corrected): `"last_year"` resolves to the trailing-365-day filter;
only the hard-coded literal `"2020-2024"` resolves to the inclusive lower
bound 2020-01-01 and exclusive upper bound 2025-01-01; every other value —
including `"all"` and every other `"YYYY-YYYY"` string — resolves to the
date-not-null filter. -/
theorem C7_amended (nm dr : Str) :
    (dr = str "last_year" →
       date_filter nm dr = str "published_date >= " ++ sq ++ nm ++ sq) ∧
    (dr = str "2020-2024" →
       date_filter nm dr =
         str "published_date >= " ++ sq ++ str "2020-01-01" ++ sq ++
         str " AND published_date < " ++ sq ++ str "2025-01-01" ++ sq) ∧
    (dr ≠ str "last_year" → dr ≠ str "2020-2024" →
       date_filter nm dr = str "published_date IS NOT NULL") := by
  refine ⟨?_, ?_, ?_⟩
  · intro h
    rw [date_filter, if_pos h]
  · intro h
    rw [date_filter, if_neg (by rw [h]; decide), if_pos h]
  · intro h1 h2
    rw [date_filter, if_neg h1, if_neg h2]

/-- C7 witness: the year range `"2019-2023"` resolves to the
date-not-null filter. -/
theorem C7_witness :
    (str "2019-2023" ≠ str "last_year") ∧
    (str "2019-2023" ≠ str "2020-2024") ∧
    date_filter (str "2024-01-01") (str "2019-2023") =
      str "published_date IS NOT NULL" :=
  ⟨by decide, by decide,
   (C7_amended (str "2024-01-01") (str "2019-2023")).2.2 (by decide)
     (by decide)⟩

/-- C1 counterexample, covering both halves of the claimed size bound.
With `budget = 4`, `smart = false` and the 5-character text `"aaaaa"`, the
chunker returns `"aa...a"` of length 6 > 4.  With `budget = 20` and
`smart = true` on a 50-character text whose salient sentence has joined
length 18 < 20, `remaining_space = 20 - 18 - 10 = -8` and the Python
negative-stop slice `regular_text[:-8]` keeps 22 of the 30 regular
characters, so the output has length 18 + 2 + 22 + 3 = 45 — the smart
path violates the bound without limit (here even `budget + 3`). -/
theorem C1_counterexample :
    chunk_text (str "aaaaa") 4 false = str "aa...a" ∧
    ¬ (chunk_text (str "aaaaa") 4 false).length ≤ 4 ∧
    (chunk_text
      (str "mostra aaaaaaaaaaa. bbbbbbbbbbbbbbbbbbbbbbbbbbbbbb") 20
      true).length = 45 ∧
    ¬ (chunk_text
      (str "mostra aaaaaaaaaaa. bbbbbbbbbbbbbbbbbbbbbbbbbbbbbb") 20
      true).length ≤ 20 + 3 :=
  ⟨by decide, by decide, by decide, by decide⟩

/-- C1 (corrected): the claimed size bound splits by path.  On the
`smart = false` path with `budget ≥ 4`, the output on over-long text is
the first `floor(budget*0.6)` characters, an ellipsis marker, then the
last `floor(budget*0.4)` characters — the three ellipsis characters are
not counted against the budget, so the guaranteed bound is
`len ≤ budget + 3`, not `len ≤ budget`.  On the `smart = true` path no
uniform bound holds at all: there are a text and a budget ≥ 4 (exhibited
in the counterexample via the negative `remaining_space` slice) whose
output exceeds even `budget + 3`. -/
theorem C1_amended (text : Str) (b : Nat) (hb : 4 ≤ b) :
    ((chunk_text text b false).length ≤ b + 3 ∧
     (b < text.length →
       chunk_text text b false =
         text.take (6 * b / 10) ++ str "..." ++
           pyTakeLast text (4 * b / 10))) ∧
    (∃ (t : Str) (b₂ : Nat), 4 ≤ b₂ ∧
       ¬ (chunk_text t b₂ true).length ≤ b₂ + 3) := by
  refine ⟨?_, str "mostra aaaaaaaaaaa. bbbbbbbbbbbbbbbbbbbbbbbbbbbbbb", 20,
    by decide, by decide⟩
  by_cases h : text.length ≤ b
  · refine ⟨?_, fun hlt => absurd h (by omega)⟩
    unfold chunk_text
    rw [if_pos h]
    omega
  · have hlt : b < text.length := by omega
    have heq : chunk_text text b false =
        text.take (6 * b / 10) ++ str "..." ++
          pyTakeLast text (4 * b / 10) := by
      unfold chunk_text
      rw [if_neg h, if_pos rfl]
    refine ⟨?_, fun _ => heq⟩
    rw [heq]
    have hlast : 4 * b / 10 ≠ 0 := by omega
    rw [pyTakeLast, if_neg hlast]
    have h3 : (str "...").length = 3 := rfl
    simp only [List.length_append, List.length_take, List.length_drop, h3]
    omega

/-- C1 witness: at `budget = 4` on `"aaaaa"` the amended description
holds: head/ellipsis/tail structure and length within `budget + 3`, and
the smart-path bound failure is inhabited. -/
theorem C1_witness :
    (4 ≤ 4) ∧ (4 < (str "aaaaa").length) ∧
    (chunk_text (str "aaaaa") 4 false).length ≤ 4 + 3 ∧
    chunk_text (str "aaaaa") 4 false =
      (str "aaaaa").take (6 * 4 / 10) ++ str "..." ++
        pyTakeLast (str "aaaaa") (4 * 4 / 10) ∧
    (∃ (t : Str) (b₂ : Nat), 4 ≤ b₂ ∧
       ¬ (chunk_text t b₂ true).length ≤ b₂ + 3) :=
  ⟨by decide, by decide, (C1_amended (str "aaaaa") 4 (by decide)).1.1,
   (C1_amended (str "aaaaa") 4 (by decide)).1.2 (by decide),
   (C1_amended (str "aaaaa") 4 (by decide)).2⟩

/-- C5 counterexample: in `"mostra abc. xyzw"` with `budget = 10`, the one
salient sentence `"mostra abc"` has joined length exactly 10 ≤ budget, yet
the chunker enters its truncation branch (`len >= chunk_size`) and returns
`"mostra ..."`, in which the salient sentence does not appear verbatim. -/
theorem C5_counterexample :
    10 < (str "mostra abc. xyzw").length ∧
    (splitDot (str "mostra abc. xyzw")).filter is_important =
      [str "mostra abc"] ∧
    (joinSep (str ". ")
      ((splitDot (str "mostra abc. xyzw")).filter is_important)).length
      ≤ 10 ∧
    ¬ str "mostra abc" <:+: chunk_text (str "mostra abc. xyzw") 10 true :=
  ⟨by decide, by decide, by decide, by decide⟩

/-- C5 (corrected): salience preservation holds only under the strict
inequality — if the `". "`-joined concatenation of the salient sentences
has length strictly less than the budget, every salient sentence appears
verbatim in the smart-chunked output; at length exactly equal to the
budget the truncation branch fires and may cut a salient sentence. -/
theorem C5_amended (text : Str) (b : Nat) (hlen : b < text.length)
    (himp : (joinSep (str ". ")
      ((splitDot text).filter is_important)).length < b) :
    ∀ s ∈ (splitDot text).filter is_important,
      s <:+: chunk_text text b true := by
  intro s hs
  have h0 : s <:+: joinSep (str ". ") ((splitDot text).filter is_important) :=
    mem_sub_joinSep _ _ _ hs
  simp only [chunk_text]
  rw [if_neg (by omega : ¬ text.length ≤ b),
      if_neg (by decide : ¬ (true = false)),
      if_neg (by omega :
        ¬ b ≤ (joinSep (str ". ")
          ((splitDot text).filter is_important)).length)]
  split
  · exact sub_append_right _ _ _ (sub_append_right _ _ _ h0)
  · exact sub_append_right _ _ _
      (sub_append_right _ _ _ (sub_append_right _ _ _ h0))

/-- C5 witness: with `budget = 12` and text `"mostra abc. xyzwxyzw"`, the
salient sentence `"mostra abc"` (joined length 10 < 12) appears verbatim
in the output. -/
theorem C5_witness :
    12 < (str "mostra abc. xyzwxyzw").length ∧
    (joinSep (str ". ")
      ((splitDot (str "mostra abc. xyzwxyzw")).filter is_important)).length
      < 12 ∧
    str "mostra abc" ∈
      (splitDot (str "mostra abc. xyzwxyzw")).filter is_important ∧
    str "mostra abc" <:+: chunk_text (str "mostra abc. xyzwxyzw") 12 true :=
  ⟨by decide, by decide, by decide,
   C5_amended (str "mostra abc. xyzwxyzw") 12 (by decide) (by decide)
     (str "mostra abc") (by decide)⟩

/-- C2 counterexample: with `max_results = 0` and `use_graph = true`,
`execute` performs no validation and raises no validation error: the graph
adapter is invoked and its connection setup runs (a setup failure at the
collaborator propagates out of `execute`), and when records are returned
the `chunk_size // max_results` division raises `ZeroDivisionError`, which
is caught inside the adapter and surfaces as an error dict. -/
theorem C2_counterexample :
    execute (.ok (str "r")) (.setupFail (str "neo4j connection refused"))
        (.rows []) (str "2024-10-12")
        { query := str "q", use_semantic := false, use_graph := true,
          use_dates := false, chunk_size := 2000, max_results := 0,
          date_range := str "all", smart_chunking := true,
          output_format := str "summary" } =
      .error (str "neo4j connection refused") ∧
    (execute (.ok (str "r"))
        (.records [⟨str "A", str "B", 200, 300⟩]) (.rows [])
        (str "2024-10-12")
        { query := str "q", use_semantic := false, use_graph := true,
          use_dates := false, chunk_size := 2000, max_results := 0,
          date_range := str "all", smart_chunking := true,
          output_format := str "summary" }).toOption.map
      (fun r => r.graph_data) =
      some (some (.err zeroDivMsg 0)) :=
  ⟨rfl, rfl⟩

/-- C2 (corrected): `execute` validates nothing.  With `use_graph = true`
a graph connection-setup failure propagates out of `execute` regardless of
`chunk_size`/`max_results`; and with `max_results = 0`, a run in which the
collaborator returns at least one record behaves exactly like a caught
in-`try` failure with the `ZeroDivisionError` message — converted to an
error dict inside the adapter, never a validation error before the
collaborator call. -/
theorem C2_amended (gem : Except Str Str) (tO : TemporalOracle) (nm : Str)
    (p : TriQueryParams) :
    (∀ m : Str, p.use_graph = true →
       execute gem (.setupFail m) tO nm p = .error m) ∧
    (∀ recs : List GraphRecord, p.use_graph = true → p.max_results = 0 →
       recs ≠ [] →
       execute gem (.records recs) tO nm p =
         execute gem (.runFail zeroDivMsg) tO nm p) := by
  constructor
  · intro m hg
    simp [execute, hg, graph_analysis, Except.map]
  · intro recs hg hmr hrecs
    have hga : graph_analysis (.records recs) p.query p.max_results
          p.chunk_size =
        graph_analysis (.runFail zeroDivMsg) p.query p.max_results
          p.chunk_size := by
      simp [graph_analysis, hrecs, hmr]
    simp only [execute, hga]

/-- C2 witness: concrete runs with `max_results = 0`, `use_graph = true`:
setup failure propagates; a returned record stream behaves as the caught
division error. -/
theorem C2_witness :
    execute (.ok (str "r")) (.setupFail (str "boom")) (.rows [])
        (str "2024-10-12")
        { query := str "q", use_semantic := true, use_graph := true,
          use_dates := false, chunk_size := 2000, max_results := 0,
          date_range := str "all", smart_chunking := true,
          output_format := str "summary" } =
      .error (str "boom") ∧
    execute (.ok (str "r")) (.records [⟨str "A", str "B", 200, 300⟩])
        (.rows []) (str "2024-10-12")
        { query := str "q", use_semantic := true, use_graph := true,
          use_dates := false, chunk_size := 2000, max_results := 0,
          date_range := str "all", smart_chunking := true,
          output_format := str "summary" } =
      execute (.ok (str "r")) (.runFail zeroDivMsg) (.rows [])
        (str "2024-10-12")
        { query := str "q", use_semantic := true, use_graph := true,
          use_dates := false, chunk_size := 2000, max_results := 0,
          date_range := str "all", smart_chunking := true,
          output_format := str "summary" } :=
  ⟨(C2_amended (.ok (str "r")) (.rows []) (str "2024-10-12")
      { query := str "q", use_semantic := true, use_graph := true,
        use_dates := false, chunk_size := 2000, max_results := 0,
        date_range := str "all", smart_chunking := true,
        output_format := str "summary" }).1 (str "boom") rfl,
   (C2_amended (.ok (str "r")) (.rows []) (str "2024-10-12")
      { query := str "q", use_semantic := true, use_graph := true,
        use_dates := false, chunk_size := 2000, max_results := 0,
        date_range := str "all", smart_chunking := true,
        output_format := str "summary" }).2
     [⟨str "A", str "B", 200, 300⟩] rfl rfl (by decide)⟩

/-- C6 counterexample: an enabled semantic adapter whose dict has `error`
set still contributes the fragment `"🧠 Semantico: N/A"` to
`combined_summary` (the code only tests dict truthiness, not the error
field), contrary to the claim that only non-error results contribute. -/
theorem C6_counterexample :
    (execute (.error (str "Gemini down")) (.records []) (.rows [])
        (str "2024-10-12")
        { query := str "q", use_semantic := true, use_graph := false,
          use_dates := false, chunk_size := 2000, max_results := 10,
          date_range := str "all", smart_chunking := true,
          output_format := str "summary" }).toOption.map
      (fun r => (r.semantic_analysis, r.combined_summary)) =
      some (some (.err (str "Gemini down") 0),
            str "🧠 Semantico: N/A") :=
  rfl

/-- C6 (corrected): the semantic fragment is appended whenever the
semantic adapter was invoked at all — error or not, an error dict yields
the fragment `"🧠 Semantico: N/A"`; the graph and temporal adapters
contribute a fragment only when their dict is non-error with a non-empty
`collaborations`/`timeline` list (an error dict contributes exactly what
an absent one does); and whenever no fragment is produced,
`combined_summary` is the fixed no-system-activated string. -/
theorem C6_amended (gem : Except Str Str) (gO : GraphOracle)
    (tO : TemporalOracle) (nm : Str) (p : TriQueryParams) :
    (∀ r, execute gem gO tO nm p = .ok r → p.use_semantic = true →
       ∃ s, r.semantic_analysis = some s ∧
         (str "🧠 Semantico: " ++ s.analysisGet.take 100) <+:
           r.combined_summary) ∧
    (∀ (m : Str) (u : Nat),
       str "🧠 Semantico: " ++ (SemResult.analysisGet (.err m u)).take 100 =
         str "🧠 Semantico: N/A") ∧
    (∀ sem t (m : Str) (u : Nat),
       summaryParts sem (some (.err m u)) t = summaryParts sem none t) ∧
    (∀ sem g (m : Str) (u : Nat),
       summaryParts sem g (some (.err m u)) = summaryParts sem g none) ∧
    (∀ (p₁ : TriQueryParams) sem g t, summaryParts sem g t = [] →
       (assemble p₁ sem g t).combined_summary =
         str "Nessun sistema attivato") ∧
    (p.use_semantic = false → p.use_graph = false → p.use_dates = false →
       (execute gem gO tO nm p).toOption.map (fun r => r.combined_summary) =
         some (str "Nessun sistema attivato")) := by
  refine ⟨?_, fun m u => rfl, fun sem t m u => rfl, fun sem g m u => rfl,
    fun p₁ sem g t hparts => by simp [assemble, hparts], ?_⟩
  · intro r hex hsem
    simp only [execute] at hex
    split at hex
    · exact absurd hex (by simp)
    · rename_i gr hgr
      split at hex
      · exact absurd hex (by simp)
      · rename_i tr htr
        injection hex with h1
        subst h1
        have hif : (if p.use_semantic = true
              then some (semantic_analysis gem p.query p.chunk_size)
              else none) =
            some (semantic_analysis gem p.query p.chunk_size) := by
          simp [hsem]
        rw [hif]
        refine ⟨semantic_analysis gem p.query p.chunk_size, rfl, ?_⟩
        show (str "🧠 Semantico: " ++
            (semantic_analysis gem p.query p.chunk_size).analysisGet.take
              100) <+:
          (if summaryParts
              (some (semantic_analysis gem p.query p.chunk_size)) gr tr = []
            then str "Nessun sistema attivato"
            else joinSep (str " | ")
              (summaryParts
                (some (semantic_analysis gem p.query p.chunk_size)) gr tr))
        have hne : summaryParts
            (some (semantic_analysis gem p.query p.chunk_size)) gr tr ≠
            [] := List.cons_ne_nil _ _
        rw [if_neg hne]
        exact joinSep_head_sub _ _ _
  · intro h1 h2 h3
    simp [execute, h1, h2, h3, assemble, summaryParts, contextUsage,
      Except.toOption]

/-- C6 witness: concrete instances — the error fragment text, and the
no-system-activated summary when every flag is off. -/
theorem C6_witness :
    (str "🧠 Semantico: " ++
      (SemResult.analysisGet (.err (str "boom") 0)).take 100 =
      str "🧠 Semantico: N/A") ∧
    (execute (.ok (str "r")) (.records []) (.rows []) (str "2024-10-12")
        { query := str "q", use_semantic := false, use_graph := false,
          use_dates := false, chunk_size := 2000, max_results := 10,
          date_range := str "all", smart_chunking := true,
          output_format := str "summary" }).toOption.map
      (fun r => r.combined_summary) =
      some (str "Nessun sistema attivato") :=
  ⟨(C6_amended (.ok (str "r")) (.records []) (.rows []) (str "2024-10-12")
      { query := str "q", use_semantic := false, use_graph := false,
        use_dates := false, chunk_size := 2000, max_results := 10,
        date_range := str "all", smart_chunking := true,
        output_format := str "summary" }).2.1 (str "boom") 0,
   (C6_amended (.ok (str "r")) (.records []) (.rows []) (str "2024-10-12")
      { query := str "q", use_semantic := false, use_graph := false,
        use_dates := false, chunk_size := 2000, max_results := 10,
        date_range := str "all", smart_chunking := true,
        output_format := str "summary" }).2.2.2.2.2 rfl rfl rfl⟩

/-- C4 counterexample: on a successful semantic call the surfaced analysis
text is the 2-character string `"ok"`, yet `context_usage["semantic"]` is
`len(prompt) + 2` — the prompt length is added in, so the reported usage
is not the character length of the text actually surfaced. -/
theorem C4_counterexample :
    (execute (.ok (str "ok")) (.records []) (.rows []) (str "2024-10-12")
        { query := str "q", use_semantic := true, use_graph := false,
          use_dates := false, chunk_size := 2000, max_results := 10,
          date_range := str "all", smart_chunking := true,
          output_format := str "summary" }).toOption.map
      (fun r => List.lookup (str "semantic") r.context_usage) =
      some (some ((semanticPrompt (str "q")).length + 2)) ∧
    (execute (.ok (str "ok")) (.records []) (.rows []) (str "2024-10-12")
        { query := str "q", use_semantic := true, use_graph := false,
          use_dates := false, chunk_size := 2000, max_results := 10,
          date_range := str "all", smart_chunking := true,
          output_format := str "summary" }).toOption.map
      (fun r => r.semantic_analysis.map (fun s => s.analysisGet.length)) =
      some (some 2) ∧
    (semanticPrompt (str "q")).length + 2 ≠ 2 :=
  ⟨rfl, rfl, by decide⟩

/-- C4 (corrected): `context_usage["semantic"]` equals the `tokens_used`
of the semantic dict, which on success is the prompt length PLUS the chunked
analysis length (a crude proxy, not the surfaced text length alone) and on
error is 0; `context_usage["graph"]`/`["temporal"]` do equal the exact
summed character length of the surfaced row strings (0 on error); and a
system that was not invoked has no `context_usage` entry at all. -/
theorem C4_amended :
    (∀ (gem : Except Str Str) (q : Str) (cs : Nat) (s : SemOk),
       semantic_analysis gem q cs = .ok s →
       s.tokens_used = (semanticPrompt q).length + s.analysis.length) ∧
    (∀ (o : GraphOracle) (q : Str) (mr cs : Nat) (g : GraphOk),
       graph_analysis o q mr cs = .ok (.ok g) →
       g.char_used = (g.collaborations.map List.length).sum) ∧
    (∀ (o : TemporalOracle) (q nm dr : Str) (mr cs : Nat)
       (t : TemporalOk),
       temporal_analysis o q nm dr mr cs = .ok (.ok t) →
       t.char_used = (t.timeline.map List.length).sum) ∧
    (∀ (gem : Except Str Str) (gO : GraphOracle) (tO : TemporalOracle)
       (nm : Str) (p : TriQueryParams), p.use_semantic = true →
       (execute gem gO tO nm p).toOption.map
           (fun r => List.lookup (str "semantic") r.context_usage) =
         (execute gem gO tO nm p).toOption.map
           (fun _ =>
             some (semantic_analysis gem p.query p.chunk_size).tokensUsed)) ∧
    (∀ (gem : Except Str Str) (gO : GraphOracle) (tO : TemporalOracle)
       (nm : Str) (p : TriQueryParams), p.use_semantic = false →
       (execute gem gO tO nm p).toOption.map
           (fun r => List.lookup (str "semantic") r.context_usage) =
         (execute gem gO tO nm p).toOption.map (fun _ => none)) := by
  refine ⟨?_, ?_, ?_, ?_, ?_⟩
  · intro gem q cs s h
    cases gem with
    | error e => exact absurd h (by simp [semantic_analysis])
    | ok resp =>
      by_cases hq : q = []
      · simp only [semantic_analysis, if_pos hq] at h
        injection h with h1
        rw [← h1]
      · simp only [semantic_analysis, if_neg hq] at h
        cases hsp : splitWs q with
        | nil => rw [hsp] at h; exact absurd h (by simp)
        | cons w ws =>
          rw [hsp] at h
          injection h with h1
          rw [← h1]
  · intro o q mr cs g h
    cases o with
    | setupFail m => exact absurd h (by simp [graph_analysis])
    | runFail m => exact absurd h (by simp [graph_analysis])
    | records recs =>
      simp only [graph_analysis] at h
      split at h
      · injection h with h1; exact absurd h1 (by simp)
      · injection h with h1
        injection h1 with h2
        rw [← h2]
  · intro o q nm dr mr cs t h
    cases o with
    | setupFail m => exact absurd h (by simp [temporal_analysis])
    | runFail m => exact absurd h (by simp [temporal_analysis])
    | rows rows =>
      simp only [temporal_analysis] at h
      injection h with h1
      injection h1 with h2
      rw [← h2]
  · intro gem gO tO nm p hsem
    simp only [execute]
    split
    · rfl
    · split
      · rfl
      · simp only [Except.toOption, Option.map]
        simp [assemble, contextUsage, hsem, List.lookup]
  · intro gem gO tO nm p hsem
    simp only [execute]
    split
    · rfl
    · split
      · rfl
      · simp only [Except.toOption, Option.map]
        have hk1 : ((str "semantic") == (str "graph")) = false := by decide
        have hk2 : ((str "semantic") == (str "temporal")) = false := by
          decide
        by_cases hg : p.use_graph = true <;>
          by_cases hd : p.use_dates = true <;>
            simp [assemble, contextUsage, hsem, hg, hd, List.lookup, hk1,
              hk2]

/-- C4 witness: concrete runs exercising each conjunct — a successful
semantic call reports prompt length plus analysis length, graph and
temporal report summed surfaced lengths, and the lookup plumbing holds
with the flag on and off. -/
theorem C4_witness :
    (semantic_analysis (.ok (str "ok")) (str "q") 2000 =
      SemResult.ok
        { entities := [], query_type := str "ricerca", focus := str "q",
          analysis := str "ok",
          tokens_used := (semanticPrompt (str "q")).length +
            (str "ok").length }) ∧
    ({ entities := [], query_type := str "ricerca", focus := str "q",
       analysis := str "ok",
       tokens_used := (semanticPrompt (str "q")).length +
         (str "ok").length : SemOk }).tokens_used =
      (semanticPrompt (str "q")).length + (str "ok").length ∧
    (execute (.ok (str "ok")) (.records []) (.rows []) (str "2024-10-12")
        { query := str "q", use_semantic := true, use_graph := false,
          use_dates := false, chunk_size := 2000, max_results := 10,
          date_range := str "all", smart_chunking := true,
          output_format := str "summary" }).toOption.map
      (fun r => List.lookup (str "semantic") r.context_usage) =
      (execute (.ok (str "ok")) (.records []) (.rows []) (str "2024-10-12")
        { query := str "q", use_semantic := true, use_graph := false,
          use_dates := false, chunk_size := 2000, max_results := 10,
          date_range := str "all", smart_chunking := true,
          output_format := str "summary" }).toOption.map
      (fun _ =>
        some (semantic_analysis (.ok (str "ok")) (str "q")
          2000).tokensUsed) ∧
    (execute (.ok (str "ok")) (.records []) (.rows []) (str "2024-10-12")
        { query := str "q", use_semantic := false, use_graph := true,
          use_dates := true, chunk_size := 2000, max_results := 10,
          date_range := str "all", smart_chunking := true,
          output_format := str "summary" }).toOption.map
      (fun r => List.lookup (str "semantic") r.context_usage) =
      (execute (.ok (str "ok")) (.records []) (.rows []) (str "2024-10-12")
        { query := str "q", use_semantic := false, use_graph := true,
          use_dates := true, chunk_size := 2000, max_results := 10,
          date_range := str "all", smart_chunking := true,
          output_format := str "summary" }).toOption.map (fun _ => none) :=
  ⟨by decide,
   C4_amended.1 (.ok (str "ok")) (str "q") 2000
     { entities := [], query_type := str "ricerca", focus := str "q",
       analysis := str "ok",
       tokens_used := (semanticPrompt (str "q")).length +
         (str "ok").length } (by decide),
   C4_amended.2.2.2.1 (.ok (str "ok")) (.records []) (.rows [])
     (str "2024-10-12")
     { query := str "q", use_semantic := true, use_graph := false,
       use_dates := false, chunk_size := 2000, max_results := 10,
       date_range := str "all", smart_chunking := true,
       output_format := str "summary" } rfl,
   C4_amended.2.2.2.2 (.ok (str "ok")) (.records []) (.rows [])
     (str "2024-10-12")
     { query := str "q", use_semantic := false, use_graph := true,
       use_dates := true, chunk_size := 2000, max_results := 10,
       date_range := str "all", smart_chunking := true,
       output_format := str "summary" } rfl⟩

end TriQuery
